import Mathlib

/-!
A shallow embedding, in Lean 4, of the order-management domain model:
the typed-identity component (`domain/id.rs`), the order aggregate
(`domain/orders/model/mod.rs`) and the add-or-update-product command
(`domain/orders/commands/add_or_update_product.rs`), together with
proofs of the specified properties.

Conventions of the embedding:
* Rust `Result<T, E>` becomes `Except E T`; the `?` operator becomes
  explicit matching that propagates the error.
* A Rust `&mut self` method that can fail becomes a Lean function
  returning `Except E Unit × Self`: the second component is the state of
  `self` after the call (unchanged on every early `?` return, exactly as
  in the source, where the single mutation happens after all fallible
  steps).
* An `IdProvider` collaborator is represented by the outcome of the one
  `id()` call a given operation performs on it: a value of type
  `Except IdError (Id _)`.
* The 128-bit UUID inside `Id<T>` is modelled as a `Nat` (the numeric
  value of its 16 bytes, big-endian); `f32` prices are modelled by their
  bit pattern as a `Nat` — the code only ever copies prices, it never
  computes with them.
* The store and the product-lookup query used by the command are
  collaborator functions supplied to the command; the command also
  returns the trace of store writes it performed, so that persistence
  effects can be stated.
-/

namespace RustShop

/-! ## Identity component (`domain/id.rs`)

`Id<T>` wraps a `Uuid` with a phantom type tag.  The tag is carried as a
type parameter; equality, ordering and (de)serialisation are independent
of it.  The `uuid` crate itself is an external dependency, so its
canonical text form is modelled from the spec: a well-formed UUID string
is five groups of hex digits of lengths 8-4-4-4-12 separated by
hyphens, and `parse` fails on anything else. -/

abbrev IdError := String

structure Id (T : Type) where
  val : Nat
deriving DecidableEq, Repr

/-- A hexadecimal digit character for a value `d < 16` (lowercase, as in
the canonical UUID form). -/
def hexDigit (d : Nat) : Char :=
  Char.ofNat (if d < 10 then 48 + d else 87 + d)

/-- Is `c` a hexadecimal digit (either case)? -/
def isHexChar (c : Char) : Bool :=
  (decide ('0' ≤ c) && decide (c ≤ '9')) ||
  (decide ('a' ≤ c) && decide (c ≤ 'f')) ||
  (decide ('A' ≤ c) && decide (c ≤ 'F'))

/-- Numeric value of a hexadecimal digit character. -/
def hexVal (c : Char) : Nat :=
  if c ≤ '9' then c.toNat - 48
  else if c ≤ 'F' then c.toNat - 55
  else c.toNat - 87

/-- The `k` low hexadecimal digits of `n`, most significant first. -/
def toHexChars : Nat → Nat → List Char
  | 0, _ => []
  | k + 1, n => hexDigit (n / 16 ^ k % 16) :: toHexChars k n

/-- Canonical 8-4-4-4-12 hyphenated rendering of a 128-bit value,
modelled from the spec's "canonical string form" (`Display for Id<T>`
delegates to the `uuid` crate's hyphenated lowercase form). -/
def renderUuidChars (n : Nat) : List Char :=
  toHexChars 8 (n / 16 ^ 24) ++ '-' ::
  (toHexChars 4 (n / 16 ^ 20) ++ '-' ::
  (toHexChars 4 (n / 16 ^ 16) ++ '-' ::
  (toHexChars 4 (n / 16 ^ 12) ++ '-' ::
  toHexChars 12 n)))

/-- Rendering (`Display for Id<T>`): render the wrapped UUID canonically. -/
def Id.render {T : Type} (id : Id T) : String :=
  String.mk (renderUuidChars id.val)

/-- Read exactly `k` hex digits, extending the big-endian accumulator
`acc`; returns the value so far and the unconsumed input. -/
def readHex : Nat → Nat → List Char → Option (Nat × List Char)
  | 0, acc, cs => some (acc, cs)
  | _ + 1, _, [] => none
  | k + 1, acc, c :: cs =>
    if isHexChar c then readHex k (acc * 16 + hexVal c) cs else none

/-- Consume a single hyphen. -/
def expectDash : List Char → Option (List Char)
  | '-' :: cs => some cs
  | _ => none

/-- Parse the character sequence of a hyphenated UUID (8-4-4-4-12 hex
digit groups), modelled from the spec: anything not of that shape is
rejected. -/
def parseUuidChars (cs : List Char) : Option Nat :=
  (readHex 8 0 cs).bind fun acs =>
  (expectDash acs.2).bind fun cs1 =>
  (readHex 4 acs.1 cs1).bind fun bcs =>
  (expectDash bcs.2).bind fun cs2 =>
  (readHex 4 bcs.1 cs2).bind fun ccs =>
  (expectDash ccs.2).bind fun cs3 =>
  (readHex 4 ccs.1 cs3).bind fun dcs =>
  (expectDash dcs.2).bind fun cs4 =>
  (readHex 12 dcs.1 cs4).bind fun ecs =>
  match ecs.2 with
  | [] => some ecs.1
  | _ => none

/-- Parsing (`TryFrom<&str> for Id<T>`): `Uuid::parse_str` modelled from the spec,
mapping a parse failure to an `IdError`. -/
def Id.tryFrom (T : Type) (s : String) : Except IdError (Id T) :=
  match parseUuidChars s.data with
  | some n => .ok ⟨n⟩
  | none => .error "invalid uuid"

/-- The propositional shape of a well-formed hyphenated UUID string:
five groups of hex digits of lengths 8, 4, 4, 4 and 12, separated by
single hyphens. -/
def WellFormedUuid (s : String) : Prop :=
  ∃ d1 d2 d3 d4 d5 : List Char,
    s.data = d1 ++ '-' :: (d2 ++ '-' :: (d3 ++ '-' :: (d4 ++ '-' :: d5))) ∧
    d1.length = 8 ∧ d2.length = 4 ∧ d3.length = 4 ∧ d4.length = 4 ∧
    d5.length = 12 ∧
    d1.all isHexChar = true ∧ d2.all isHexChar = true ∧
    d3.all isHexChar = true ∧ d4.all isHexChar = true ∧
    d5.all isHexChar = true

/-! ## Version component (`domain/version.rs`)

Modelled from the spec: the file is not under `src/`; the spec says a
version is an opaque per-entity-type token that starts at a type-specific
default and is compared only for equality, so it is embedded as a tagged
counter whose default is zero. -/

structure Version (T : Type) where
  val : Nat
deriving DecidableEq, Repr

def Version.default (T : Type) : Version T := ⟨0⟩

/-! ## Products and customers, as consumed by the order aggregate

The current products/customers model files are not under `src/` (only a
historical snapshot without prices is); `ProductData` is modelled from
its use in `Order::add_product`, which destructures `id` and `price`,
and `CustomerData` from its use in `Order::new`, which destructures
`id`. -/

inductive ProductDataT : Type | mk
deriving DecidableEq, Repr

inductive CustomerDataT : Type | mk
deriving DecidableEq, Repr

inductive OrderDataT : Type | mk
deriving DecidableEq, Repr

inductive LineItemDataT : Type | mk
deriving DecidableEq, Repr

abbrev ProductId := Id ProductDataT
abbrev CustomerId := Id CustomerDataT
abbrev OrderId := Id OrderDataT
abbrev LineItemId := Id LineItemDataT
abbrev OrderVersion := Version OrderDataT
abbrev LineItemVersion := Version LineItemDataT

/-- An `f32` unit price, by bit pattern; the embedded code only copies it. -/
abbrev Price := Nat

structure ProductData where
  id : ProductId
  price : Price
deriving DecidableEq, Repr

structure Product where
  data : ProductData
deriving DecidableEq, Repr

def Product.to_data (p : Product) : ProductData := p.data

structure CustomerData where
  id : CustomerId
deriving DecidableEq, Repr

structure Customer where
  data : CustomerData
deriving DecidableEq, Repr

def Customer.to_data (c : Customer) : CustomerData := c.data

/-! ## Order aggregate (`domain/orders/model/mod.rs`) -/

abbrev OrderError := String

/-- Quantity wrapper (`Quantity(u32)`) with `TryFrom<u32>`: quantities below 1 are
rejected. -/
structure Quantity where
  val : Nat
deriving DecidableEq, Repr

def Quantity.tryFrom (quantity : Nat) : Except OrderError Quantity :=
  if quantity < 1 then .error "quantity must be greater than 0"
  else .ok ⟨quantity⟩

structure OrderData where
  id : OrderId
  version : OrderVersion
  customer_id : CustomerId
deriving DecidableEq, Repr

structure LineItemData where
  id : LineItemId
  version : LineItemVersion
  product_id : ProductId
  price : Price
  quantity : Nat
deriving DecidableEq, Repr

/-- An order and its line items. -/
structure Order where
  order : OrderData
  line_items : List LineItemData
deriving DecidableEq, Repr

/-- An order and one of its line items. -/
structure OrderLineItem where
  order : OrderData
  line_item : LineItemData
deriving DecidableEq, Repr

inductive IntoLineItem where
  | InOrder (value : OrderLineItem)
  | NotInOrder (value : Order)
deriving DecidableEq, Repr

def OrderLineItem.from_data (order : OrderData) (line_item : LineItemData) :
    OrderLineItem :=
  { order := order, line_item := line_item }

def OrderLineItem.into_data (s : OrderLineItem) : OrderId × LineItemData :=
  (s.order.id, s.line_item)

def OrderLineItem.to_data (s : OrderLineItem) : OrderId × LineItemData :=
  (s.order.id, s.line_item)

/-- Method `OrderLineItem::set_quantity`: validate the quantity, then update it
in place.  The returned pair is (call result, `self` after the call). -/
def OrderLineItem.set_quantity (s : OrderLineItem) (quantity : Nat) :
    Except OrderError Unit × OrderLineItem :=
  match Quantity.tryFrom quantity with
  | .error e => (.error e, s)
  | .ok q => (.ok (), { s with line_item := { s.line_item with quantity := q.val } })

def Order.from_data (order : OrderData) (line_items : List LineItemData) :
    Order :=
  { order := order, line_items := line_items }

def Order.into_data (o : Order) : OrderData × List LineItemData :=
  (o.order, o.line_items)

def Order.to_data (o : Order) : OrderData × List LineItemData :=
  (o.order, o.line_items)

def Order.contains_product (o : Order) (product_id : ProductId) : Bool :=
  o.line_items.any (fun item => item.product_id == product_id)

/-- Method `Order::into_line_item_for_product`: consume the order; if the
product is present, keep the root data and the matching line item only,
otherwise hand the whole order back.  (In the source the `find` on the
present branch is `unwrap`ped; that branch's `none` case is unreachable
because `contains_product` just succeeded, and the embedding returns the
order itself there.) -/
def Order.into_line_item_for_product (o : Order) (product_id : ProductId) :
    IntoLineItem :=
  if !o.contains_product product_id then
    .NotInOrder o
  else
    match o.line_items.find? (fun item => item.product_id == product_id) with
    | some item => .InOrder (OrderLineItem.from_data o.order item)
    | none => .NotInOrder o

/-- Constructor `Order::new`: derive the order id from the provider, capture the
customer's id, start with the default version and no line items. -/
def Order.new (id_provider : Except IdError OrderId) (customer : Customer) :
    Except OrderError Order :=
  match id_provider with
  | .error e => .error e
  | .ok id =>
    .ok (Order.from_data
      { id := id, version := Version.default OrderDataT,
        customer_id := customer.to_data.id }
      [])

/-- Method `Order::add_product`: reject a product already present, then obtain
a line-item id, validate the quantity and append the new line item
capturing the product's current price.  The returned pair is (call
result, `self` after the call); every failing path leaves `self`
untouched, as in the source, where the `push` follows all fallible
steps. -/
def Order.add_product (o : Order) (id_provider : Except IdError LineItemId)
    (product : Product) (quantity : Nat) :
    Except OrderError Unit × Order :=
  if o.contains_product product.to_data.id then
    (.error "product is already in order", o)
  else
    match id_provider with
    | .error e => (.error e, o)
    | .ok id =>
      match Quantity.tryFrom quantity with
      | .error e => (.error e, o)
      | .ok q =>
        (.ok (),
          { o with line_items := o.line_items ++
              [{ id := id, version := Version.default LineItemDataT,
                 product_id := product.to_data.id,
                 price := product.to_data.price,
                 quantity := q.val }] })

/-- The central aggregate invariant: no two line items of the order
reference the same product. -/
def Order.distinctProducts (o : Order) : Prop :=
  o.line_items.Pairwise (fun a b => a.product_id ≠ b.product_id)

/-- The orders reachable through the public constructors and mutators:
`Order::new`, then any sequence of `add_product` calls (successful or
not — a failed call leaves the order as it was) and classifications that
hand the order back (`into_line_item_for_product`'s `NotInOrder`
variant; the `InOrder` variant consumes the order and yields an
`OrderLineItem`, whose `set_quantity` never touches the order's line-item
collection). -/
inductive Order.Reachable : Order → Prop where
  | new (id_provider : Except IdError OrderId) (customer : Customer)
      (o : Order) (h : Order.new id_provider customer = .ok o) :
      Order.Reachable o
  | add (o : Order) (id_provider : Except IdError LineItemId)
      (product : Product) (quantity : Nat) (h : Order.Reachable o) :
      Order.Reachable (o.add_product id_provider product quantity).2
  | classify (o o' : Order) (product_id : ProductId) (h : Order.Reachable o)
      (h' : o.into_line_item_for_product product_id = .NotInOrder o') :
      Order.Reachable o'

/-! ## Command orchestration
(`domain/orders/commands/add_or_update_product.rs`)

The command's collaborators are embedded as follows.  The error module
is not under `src/`; modelled from the spec's error kinds and the
command's `error::bad_input(..)` call sites: `Err.badInput` is the
constructor `bad_input` produces (the spec's `NotFound`/`InvalidInput`
family), and `Err.other` carries a domain/provider `String` error
converted by `?`.  The order store is not under `src/` either; its
operations are supplied as response functions, and the command
additionally returns the trace of the store writes it performed, so
that what was persisted is observable.  The transaction provider has no
observable effect on the claims (it scopes the writes) and is elided. -/

inductive Err where
  | badInput (msg : String)
  | other (msg : String)
deriving DecidableEq, Repr

/-- The `error::bad_input` constructor. -/
def bad_input (msg : String) : Err := .badInput msg

structure AddOrUpdateProduct where
  id : OrderId
  product_id : ProductId
  quantity : Nat
deriving DecidableEq, Repr

structure GetProduct where
  id : ProductId
deriving DecidableEq, Repr

/-- The responses of the `OrderStore` collaborator consulted by the
command. -/
structure OrderStoreOps where
  get_order : OrderId → Except Err (Option Order)
  set_line_item : OrderLineItem → Except Err Unit
  set_order : Order → Except Err Unit

/-- A persistence call the command issued to the store. -/
inductive StoreWrite where
  | setLineItem (value : OrderLineItem)
  | setOrder (value : Order)
deriving DecidableEq, Repr

/-- Command `add_or_update_product_command`: load the order, classify the
product via `into_line_item_for_product`, then either update the
matched line item's quantity and persist just that line item, or
generate an id, look the product up, add it and persist the whole
order.  Returns the command result together with the trace of store
writes issued (in order). -/
def add_or_update_product_command
    (store : OrderStoreOps)
    (id_provider : Except IdError LineItemId)
    (query : GetProduct → Except Err (Option Product))
    (command : AddOrUpdateProduct) :
    Except Err LineItemId × List StoreWrite :=
  match store.get_order command.id with
  | .error e => (.error e, [])
  | .ok none => (.error (bad_input "not found"), [])
  | .ok (some order) =>
    match order.into_line_item_for_product command.product_id with
    | .InOrder line_item =>
      let id := (line_item.to_data).2.id
      match line_item.set_quantity command.quantity with
      | (.error e, _) => (.error (.other e), [])
      | (.ok _, line_item) =>
        match store.set_line_item line_item with
        | .error e => (.error e, [.setLineItem line_item])
        | .ok _ => (.ok id, [.setLineItem line_item])
    | .NotInOrder order =>
      match id_provider with
      | .error e => (.error (.other e), [])
      | .ok id =>
        match query { id := command.product_id } with
        | .error e => (.error e, [])
        | .ok none => (.error (bad_input "product not found"), [])
        | .ok (some product) =>
          match order.add_product (.ok id) product command.quantity with
          | (.error e, _) => (.error (.other e), [])
          | (.ok _, order) =>
            match store.set_order order with
            | .error e => (.error e, [.setOrder order])
            | .ok _ => (.ok id, [.setOrder order])

/-! ## Helper lemmas about the order aggregate -/

theorem contains_product_iff (o : Order) (pid : ProductId) :
    o.contains_product pid = true ↔ ∃ item ∈ o.line_items, item.product_id = pid := by
  simp [Order.contains_product]

theorem contains_product_eq_false_iff (o : Order) (pid : ProductId) :
    o.contains_product pid = false ↔
      ∀ item ∈ o.line_items, item.product_id ≠ pid := by
  simp [Order.contains_product]

theorem into_line_item_of_contains (o : Order) (pid : ProductId)
    (h : o.contains_product pid = true) :
    ∃ item, o.line_items.find? (fun i => i.product_id == pid) = some item ∧
      o.into_line_item_for_product pid =
        .InOrder (OrderLineItem.from_data o.order item) := by
  unfold Order.into_line_item_for_product
  rw [h]
  cases hf : o.line_items.find? (fun i => i.product_id == pid) with
  | none =>
    rw [List.find?_eq_none] at hf
    rw [contains_product_iff] at h
    obtain ⟨x, hx, he⟩ := h
    exact absurd (by simpa using he) (hf x hx)
  | some item => exact ⟨item, rfl, by simp⟩

theorem into_line_item_of_not_contains (o : Order) (pid : ProductId)
    (h : o.contains_product pid = false) :
    o.into_line_item_for_product pid = .NotInOrder o := by
  unfold Order.into_line_item_for_product
  rw [h]
  rfl

theorem into_line_item_notInOrder_eq (o o' : Order) (pid : ProductId)
    (h : o.into_line_item_for_product pid = .NotInOrder o') : o' = o := by
  unfold Order.into_line_item_for_product at h
  split at h
  · exact (IntoLineItem.NotInOrder.inj h).symm
  · split at h
    · exact absurd h (by simp)
    · exact (IntoLineItem.NotInOrder.inj h).symm

theorem into_line_item_inOrder_parts (o : Order) (pid : ProductId)
    (oli : OrderLineItem)
    (h : o.into_line_item_for_product pid = .InOrder oli) :
    oli.order = o.order ∧ oli.line_item ∈ o.line_items ∧
      oli.line_item.product_id = pid := by
  unfold Order.into_line_item_for_product at h
  split at h
  · exact absurd h (by simp)
  · split at h
    · rename_i item hf
      obtain rfl := (IntoLineItem.InOrder.inj h).symm
      refine ⟨rfl, List.mem_of_find?_eq_some hf, ?_⟩
      simpa using List.find?_some hf
    · exact absurd h (by simp)

theorem add_product_distinct (o : Order) (idp : Except IdError LineItemId)
    (p : Product) (q : Nat) (h : o.distinctProducts) :
    ((o.add_product idp p q).2).distinctProducts := by
  unfold Order.add_product
  by_cases hc : o.contains_product p.to_data.id = true
  · simpa [hc] using h
  · rw [Bool.not_eq_true] at hc
    cases idp with
    | error e => simpa [hc] using h
    | ok id =>
      cases htf : Quantity.tryFrom q with
      | error e => simpa [hc, htf] using h
      | ok qv =>
        simp only [hc, Bool.false_eq_true, if_false, htf]
        unfold Order.distinctProducts at h ⊢
        rw [List.pairwise_append]
        refine ⟨h, by simp, ?_⟩
        intro a ha b hb
        simp only [List.mem_singleton] at hb
        subst hb
        rw [contains_product_eq_false_iff] at hc
        simpa using hc a ha

/-! ## Claim theorems for the order aggregate -/

/-- Claim C1: every `Order` reachable through the public constructors and
mutators (`Order::new`, then any sequence of `add_product` calls and
classifications handing the order back; `set_quantity` acts on an
`OrderLineItem` and never touches an order's line-item collection) has
no two line items with the same `product_id`. -/
theorem order_reachable_distinct_products (o : Order) (h : o.Reachable) :
    o.distinctProducts := by
  induction h with
  | new idp customer o h =>
    cases idp with
    | error e => exact absurd h (by simp [Order.new])
    | ok id =>
      obtain rfl := (Except.ok.inj h).symm
      simp [Order.from_data, Order.distinctProducts]
  | add o idp p q h ih => exact add_product_distinct o idp p q ih
  | classify o o' pid h h' ih =>
    obtain rfl := into_line_item_notInOrder_eq o o' pid h'
    exact ih

/-- Claim C1 witness: a concrete reachable order (freshly created, then one
product added) satisfies the invariant. -/
theorem order_reachable_distinct_products_witness :
    Order.distinctProducts
      ((Order.from_data ⟨⟨1⟩, ⟨0⟩, ⟨2⟩⟩ []).add_product (.ok ⟨3⟩) ⟨⟨⟨7⟩, 35⟩⟩ 2).2 :=
  order_reachable_distinct_products _
    (.add _ (.ok ⟨3⟩) ⟨⟨⟨7⟩, 35⟩⟩ 2
      (.new (.ok ⟨1⟩) ⟨⟨⟨2⟩⟩⟩ _ rfl))

/-- Claim C2: `into_line_item_for_product` returns `InOrder` carrying the
order's root data and a line item of the order whose `product_id` is the
requested one exactly when `contains_product` holds, and otherwise
returns `NotInOrder` carrying the whole order unchanged.  The embedding
is a pure function of the order value and the product id (the Rust
method consumes `self` and performs no mutation), so the classification
and the line-item identifier it yields are deterministic; the last
conjunct states that the yielded identifier is uniquely determined. -/
theorem into_line_item_for_product_spec (o : Order) (pid : ProductId) :
    (o.contains_product pid = true ↔
      ∃ oli, o.into_line_item_for_product pid = .InOrder oli ∧
        oli.order = o.order ∧ oli.line_item.product_id = pid ∧
        oli.line_item ∈ o.line_items) ∧
    (o.contains_product pid = false ↔
      o.into_line_item_for_product pid = .NotInOrder o) ∧
    (∀ oli₁ oli₂, o.into_line_item_for_product pid = .InOrder oli₁ →
      o.into_line_item_for_product pid = .InOrder oli₂ →
      oli₁.line_item.id = oli₂.line_item.id) := by
  refine ⟨⟨?_, ?_⟩, ⟨?_, ?_⟩, ?_⟩
  · intro h
    obtain ⟨item, hf, hinto⟩ := into_line_item_of_contains o pid h
    exact ⟨_, hinto, rfl, by simpa using List.find?_some hf,
      List.mem_of_find?_eq_some hf⟩
  · rintro ⟨oli, hinto, -, hpid, hmem⟩
    rw [contains_product_iff]
    exact ⟨_, hmem, hpid⟩
  · exact into_line_item_of_not_contains o pid
  · intro h
    cases hc : o.contains_product pid
    · rfl
    · obtain ⟨item, hf, hinto⟩ := into_line_item_of_contains o pid hc
      rw [hinto] at h
      exact absurd h (by simp)
  · intro oli₁ oli₂ h₁ h₂
    rw [h₁] at h₂
    rw [IntoLineItem.InOrder.inj h₂]

/-- Claim C2 witness: on a concrete one-item order, the classification of
the present product yields `InOrder` with the matching line item, and
the classification of an absent product yields `NotInOrder` with the
same order. -/
theorem into_line_item_for_product_spec_witness :
    (∃ oli, (Order.from_data ⟨⟨1⟩, ⟨0⟩, ⟨2⟩⟩
        [⟨⟨3⟩, ⟨0⟩, ⟨7⟩, 35, 2⟩]).into_line_item_for_product ⟨7⟩ =
          .InOrder oli ∧
      oli.order = ⟨⟨1⟩, ⟨0⟩, ⟨2⟩⟩ ∧ oli.line_item.product_id = ⟨7⟩ ∧
      oli.line_item ∈ [⟨⟨3⟩, ⟨0⟩, ⟨7⟩, 35, 2⟩]) ∧
    (Order.from_data ⟨⟨1⟩, ⟨0⟩, ⟨2⟩⟩
        [⟨⟨3⟩, ⟨0⟩, ⟨7⟩, 35, 2⟩]).into_line_item_for_product ⟨8⟩ =
      .NotInOrder (Order.from_data ⟨⟨1⟩, ⟨0⟩, ⟨2⟩⟩ [⟨⟨3⟩, ⟨0⟩, ⟨7⟩, 35, 2⟩]) :=
  ⟨(into_line_item_for_product_spec _ ⟨7⟩).1.mp (by decide),
   (into_line_item_for_product_spec _ ⟨8⟩).2.1.mp (by decide)⟩

/-- Claim C3: adding an absent product with a succeeding id provider and a
quantity `q ≥ 1` succeeds; afterwards the product is contained, there is
exactly one more line item, and the new line item carries quantity `q`
and the price captured from the product at add time. -/
theorem add_product_spec (o : Order) (id : LineItemId) (p : Product)
    (q : Nat) (h : o.contains_product p.to_data.id = false) (hq : 1 ≤ q) :
    o.add_product (.ok id) p q =
      (.ok (), { o with line_items := o.line_items ++
        [{ id := id, version := Version.default LineItemDataT,
           product_id := p.to_data.id, price := p.to_data.price,
           quantity := q }] }) ∧
    ((o.add_product (.ok id) p q).2).contains_product p.to_data.id = true ∧
    ((o.add_product (.ok id) p q).2).line_items.length =
      o.line_items.length + 1 := by
  have h1 : o.add_product (.ok id) p q =
      (.ok (), { o with line_items := o.line_items ++
        [{ id := id, version := Version.default LineItemDataT,
           product_id := p.to_data.id, price := p.to_data.price,
           quantity := q }] }) := by
    unfold Order.add_product Quantity.tryFrom
    simp [h, Nat.not_lt.mpr hq]
  refine ⟨h1, ?_, ?_⟩
  · rw [h1, contains_product_iff]
    exact ⟨_, List.mem_append_right _ (List.mem_singleton_self _), rfl⟩
  · rw [h1]
    simp

/-- Claim C3 witness: adding a concrete absent product to a concrete
one-item order. -/
theorem add_product_spec_witness :
    (Order.from_data ⟨⟨1⟩, ⟨0⟩, ⟨2⟩⟩
        [⟨⟨3⟩, ⟨0⟩, ⟨7⟩, 35, 2⟩]).add_product (.ok ⟨4⟩) ⟨⟨⟨8⟩, 40⟩⟩ 5 =
      (.ok (), Order.from_data ⟨⟨1⟩, ⟨0⟩, ⟨2⟩⟩
        [⟨⟨3⟩, ⟨0⟩, ⟨7⟩, 35, 2⟩, ⟨⟨4⟩, ⟨0⟩, ⟨8⟩, 40, 5⟩]) :=
  (add_product_spec _ ⟨4⟩ ⟨⟨⟨8⟩, 40⟩⟩ 5 (by decide) (by decide)).1

/-- Claim C4: `add_product` fails exactly when the product is already in
the order, or the quantity is below 1, or the id provider fails, and on
every failure the order (root data and line items) is unchanged;
`set_quantity` fails exactly when the new quantity is below 1, and on
failure the `OrderLineItem` is unchanged. -/
theorem mutation_failure_spec (o : Order) (idp : Except IdError LineItemId)
    (p : Product) (q : Nat) (s : OrderLineItem) (q' : Nat) :
    ((∃ e, (o.add_product idp p q).1 = .error e) ↔
      (o.contains_product p.to_data.id = true ∨ q < 1 ∨
        ∃ e, idp = .error e)) ∧
    (∀ e, (o.add_product idp p q).1 = .error e →
      (o.add_product idp p q).2 = o) ∧
    ((∃ e, (s.set_quantity q').1 = .error e) ↔ q' < 1) ∧
    (∀ e, (s.set_quantity q').1 = .error e → (s.set_quantity q').2 = s) := by
  by_cases hc : o.contains_product p.to_data.id = true <;>
    by_cases hq : q < 1 <;>
    by_cases hq' : q' < 1 <;>
    cases idp <;>
    simp [Order.add_product, OrderLineItem.set_quantity, Quantity.tryFrom,
      hc, hq, hq', Bool.not_eq_true] at *

/-- Claim C4 witness: concrete failing calls — adding a duplicate product
and setting quantity 0 — fail and leave the state unchanged. -/
theorem mutation_failure_spec_witness :
    (∃ e, ((Order.from_data ⟨⟨1⟩, ⟨0⟩, ⟨2⟩⟩
        [⟨⟨3⟩, ⟨0⟩, ⟨7⟩, 35, 2⟩]).add_product (.ok ⟨4⟩) ⟨⟨⟨7⟩, 35⟩⟩ 1).1 =
      .error e) ∧
    ((Order.from_data ⟨⟨1⟩, ⟨0⟩, ⟨2⟩⟩
        [⟨⟨3⟩, ⟨0⟩, ⟨7⟩, 35, 2⟩]).add_product (.ok ⟨4⟩) ⟨⟨⟨7⟩, 35⟩⟩ 1).2 =
      Order.from_data ⟨⟨1⟩, ⟨0⟩, ⟨2⟩⟩ [⟨⟨3⟩, ⟨0⟩, ⟨7⟩, 35, 2⟩] ∧
    (∃ e, ((OrderLineItem.from_data ⟨⟨1⟩, ⟨0⟩, ⟨2⟩⟩
        ⟨⟨3⟩, ⟨0⟩, ⟨7⟩, 35, 2⟩).set_quantity 0).1 = .error e) ∧
    ((OrderLineItem.from_data ⟨⟨1⟩, ⟨0⟩, ⟨2⟩⟩
        ⟨⟨3⟩, ⟨0⟩, ⟨7⟩, 35, 2⟩).set_quantity 0).2 =
      OrderLineItem.from_data ⟨⟨1⟩, ⟨0⟩, ⟨2⟩⟩ ⟨⟨3⟩, ⟨0⟩, ⟨7⟩, 35, 2⟩ := by
  have h := mutation_failure_spec
    (Order.from_data ⟨⟨1⟩, ⟨0⟩, ⟨2⟩⟩ [⟨⟨3⟩, ⟨0⟩, ⟨7⟩, 35, 2⟩]) (.ok ⟨4⟩)
    ⟨⟨⟨7⟩, 35⟩⟩ 1
    (OrderLineItem.from_data ⟨⟨1⟩, ⟨0⟩, ⟨2⟩⟩ ⟨⟨3⟩, ⟨0⟩, ⟨7⟩, 35, 2⟩) 0
  refine ⟨h.1.mpr (Or.inl (by decide)), ?_, h.2.2.1.mpr (by decide), ?_⟩
  · exact h.2.1 "product is already in order" rfl
  · exact h.2.2.2 "quantity must be greater than 0" rfl

/-- Claim C8: successful in-memory mutation never changes versions: after
a successful `add_product` the order's root data (its `version`
included) is unchanged and the pre-existing line items (their `version`
fields included) are exactly the old list, a single new item being
appended; after a successful `set_quantity` the root data is unchanged
and the line item's `id`, `version`, `product_id` and `price` are
unchanged, only its `quantity` taking the new value. -/
theorem mutation_version_frame :
    (∀ (o : Order) (idp : Except IdError LineItemId) (p : Product)
      (q : Nat), (o.add_product idp p q).1 = .ok () →
      ((o.add_product idp p q).2).order = o.order ∧
      ∃ item, ((o.add_product idp p q).2).line_items =
        o.line_items ++ [item]) ∧
    (∀ (s : OrderLineItem) (q' : Nat),
      (s.set_quantity q').1 = .ok () →
      ((s.set_quantity q').2).order = s.order ∧
      ((s.set_quantity q').2).line_item.id = s.line_item.id ∧
      ((s.set_quantity q').2).line_item.version = s.line_item.version ∧
      ((s.set_quantity q').2).line_item.product_id =
        s.line_item.product_id ∧
      ((s.set_quantity q').2).line_item.price = s.line_item.price ∧
      ((s.set_quantity q').2).line_item.quantity = q') := by
  constructor
  · intro o idp p q h
    by_cases hc : o.contains_product p.to_data.id = true <;>
      cases idp <;>
      by_cases hq : q < 1 <;>
      simp [Order.add_product, Quantity.tryFrom, hc, hq,
        Bool.not_eq_true] at *
  · intro s q' h
    by_cases hq' : q' < 1 <;>
      simp [OrderLineItem.set_quantity, Quantity.tryFrom, hq'] at *

/-- Claim C8 witness: a concrete successful `add_product` and a concrete
successful `set_quantity` preserve root data and the untouched line-item
fields. -/
theorem mutation_version_frame_witness :
    ((Order.from_data ⟨⟨1⟩, ⟨0⟩, ⟨2⟩⟩
        [⟨⟨3⟩, ⟨0⟩, ⟨7⟩, 35, 2⟩]).add_product (.ok ⟨4⟩) ⟨⟨⟨8⟩, 40⟩⟩ 5).2.order =
      ⟨⟨1⟩, ⟨0⟩, ⟨2⟩⟩ ∧
    ((OrderLineItem.from_data ⟨⟨1⟩, ⟨0⟩, ⟨2⟩⟩
        ⟨⟨3⟩, ⟨0⟩, ⟨7⟩, 35, 2⟩).set_quantity 9).2.line_item.version = ⟨0⟩ := by
  have h1 := mutation_version_frame.1
    (Order.from_data ⟨⟨1⟩, ⟨0⟩, ⟨2⟩⟩ [⟨⟨3⟩, ⟨0⟩, ⟨7⟩, 35, 2⟩])
    (.ok ⟨4⟩) ⟨⟨⟨8⟩, 40⟩⟩ 5 rfl
  have h2 := mutation_version_frame.2
    (OrderLineItem.from_data ⟨⟨1⟩, ⟨0⟩, ⟨2⟩⟩ ⟨⟨3⟩, ⟨0⟩, ⟨7⟩, 35, 2⟩) 9 rfl
  exact ⟨h1.1, h2.2.2.1⟩

/-- Claim C10: when the classification finds the product, the `InOrder`
value retains only the order's root data and the single matching line
item: it is literally `from_data` of those two components (the
`OrderLineItem` type has no other field, so no other line item of the
consumed order is recoverable from it), and `into_data`/`to_data` expose
only the order id paired with that one item. -/
theorem into_line_item_retains_only_match (o : Order) (pid : ProductId)
    (oli : OrderLineItem)
    (h : o.into_line_item_for_product pid = .InOrder oli) :
    oli = OrderLineItem.from_data o.order oli.line_item ∧
    oli.order = o.order ∧ oli.line_item ∈ o.line_items ∧
    oli.line_item.product_id = pid ∧
    oli.into_data = (o.order.id, oli.line_item) ∧
    oli.to_data = (o.order.id, oli.line_item) := by
  obtain ⟨ho, hm, hp⟩ := into_line_item_inOrder_parts o pid oli h
  refine ⟨?_, ho, hm, hp, ?_, ?_⟩
  · cases oli
    simpa [OrderLineItem.from_data] using ho
  · simp [OrderLineItem.into_data, ho]
  · simp [OrderLineItem.to_data, ho]

/-- Claim C10 witness: classifying a present product in a concrete
two-item order retains only the root data and the matching item. -/
theorem into_line_item_retains_only_match_witness :
    (OrderLineItem.from_data ⟨⟨1⟩, ⟨0⟩, ⟨2⟩⟩ ⟨⟨4⟩, ⟨0⟩, ⟨8⟩, 40, 5⟩) =
      OrderLineItem.from_data ⟨⟨1⟩, ⟨0⟩, ⟨2⟩⟩ ⟨⟨4⟩, ⟨0⟩, ⟨8⟩, 40, 5⟩ ∧
    (OrderLineItem.from_data ⟨⟨1⟩, ⟨0⟩, ⟨2⟩⟩
      ⟨⟨4⟩, ⟨0⟩, ⟨8⟩, 40, 5⟩).into_data = (⟨1⟩, ⟨⟨4⟩, ⟨0⟩, ⟨8⟩, 40, 5⟩) :=
  have h := into_line_item_retains_only_match
    (Order.from_data ⟨⟨1⟩, ⟨0⟩, ⟨2⟩⟩
      [⟨⟨3⟩, ⟨0⟩, ⟨7⟩, 35, 2⟩, ⟨⟨4⟩, ⟨0⟩, ⟨8⟩, 40, 5⟩]) ⟨8⟩
    (OrderLineItem.from_data ⟨⟨1⟩, ⟨0⟩, ⟨2⟩⟩ ⟨⟨4⟩, ⟨0⟩, ⟨8⟩, 40, 5⟩)
    (by decide)
  ⟨h.1, h.2.2.2.2.1⟩

/-! ## Claim theorems for the add-or-update-product command -/

/-- Claim C5: when the stored order already contains a line item for the
requested product (the classification yields `InOrder oli`) and the
requested quantity is at least 1, the command returns the identifier of
that pre-existing line item (`oli.line_item` is one of the stored
order's line items), sets its quantity to the requested value, and the
only persistence call issued is `set_line_item` with exactly that
updated line item — the whole order is not persisted. -/
theorem add_or_update_in_order_spec (store : OrderStoreOps)
    (idp : Except IdError LineItemId)
    (query : GetProduct → Except Err (Option Product))
    (cmd : AddOrUpdateProduct) (O : Order) (oli : OrderLineItem)
    (hGet : store.get_order cmd.id = .ok (some O))
    (hClass : O.into_line_item_for_product cmd.product_id = .InOrder oli)
    (hq : 1 ≤ cmd.quantity)
    (hSet : store.set_line_item
      { oli with line_item :=
          { oli.line_item with quantity := cmd.quantity } } = .ok ()) :
    add_or_update_product_command store idp query cmd =
      (.ok oli.line_item.id,
        [.setLineItem { oli with line_item :=
          { oli.line_item with quantity := cmd.quantity } }]) ∧
    oli.line_item ∈ O.line_items := by
  refine ⟨?_, (into_line_item_inOrder_parts O cmd.product_id oli hClass).2.1⟩
  have hsetq : oli.set_quantity cmd.quantity =
      (.ok (), { oli with line_item :=
        { oli.line_item with quantity := cmd.quantity } }) := by
    unfold OrderLineItem.set_quantity Quantity.tryFrom
    rw [if_neg (Nat.not_lt.mpr hq)]
  unfold add_or_update_product_command
  rw [hGet]
  simp only [hClass, hsetq, hSet, OrderLineItem.to_data]

/-- Claim C5 witness: a concrete store holding an order that already
contains the product; the command returns the stored line-item id and
persists exactly the updated line item. -/
theorem add_or_update_in_order_spec_witness :
    add_or_update_product_command
      { get_order := fun _ =>
          .ok (some (Order.from_data ⟨⟨1⟩, ⟨0⟩, ⟨2⟩⟩ [⟨⟨3⟩, ⟨0⟩, ⟨7⟩, 35, 2⟩])),
        set_line_item := fun _ => .ok (),
        set_order := fun _ => .ok () }
      (.ok ⟨4⟩) (fun _ => .ok none) ⟨⟨1⟩, ⟨7⟩, 5⟩ =
      (.ok ⟨3⟩,
        [.setLineItem (OrderLineItem.from_data ⟨⟨1⟩, ⟨0⟩, ⟨2⟩⟩
          ⟨⟨3⟩, ⟨0⟩, ⟨7⟩, 35, 5⟩)]) :=
  (add_or_update_in_order_spec
    { get_order := fun _ =>
        .ok (some (Order.from_data ⟨⟨1⟩, ⟨0⟩, ⟨2⟩⟩ [⟨⟨3⟩, ⟨0⟩, ⟨7⟩, 35, 2⟩])),
      set_line_item := fun _ => .ok (),
      set_order := fun _ => .ok () }
    (.ok ⟨4⟩) (fun _ => .ok none) ⟨⟨1⟩, ⟨7⟩, 5⟩
    (Order.from_data ⟨⟨1⟩, ⟨0⟩, ⟨2⟩⟩ [⟨⟨3⟩, ⟨0⟩, ⟨7⟩, 35, 2⟩])
    (OrderLineItem.from_data ⟨⟨1⟩, ⟨0⟩, ⟨2⟩⟩ ⟨⟨3⟩, ⟨0⟩, ⟨7⟩, 35, 2⟩)
    rfl (by decide) (by decide) rfl).1

/-- Claim C6: the command fails with the not-found error (the code's
`error::bad_input("not found")`) when the store has no order under the
given identifier, issuing no persistence call at all; and when the order
exists but does not contain the product, the id provider succeeds and
the product lookup finds no product, it fails with the code's
`error::bad_input("product not found")`, again issuing no persistence
call. -/
theorem add_or_update_not_found_spec (store : OrderStoreOps)
    (idp : Except IdError LineItemId)
    (query : GetProduct → Except Err (Option Product))
    (cmd : AddOrUpdateProduct) :
    (store.get_order cmd.id = .ok none →
      add_or_update_product_command store idp query cmd =
        (.error (bad_input "not found"), [])) ∧
    (∀ (O : Order) (id : LineItemId),
      store.get_order cmd.id = .ok (some O) →
      O.contains_product cmd.product_id = false →
      idp = .ok id →
      query { id := cmd.product_id } = .ok none →
      add_or_update_product_command store idp query cmd =
        (.error (bad_input "product not found"), [])) := by
  constructor
  · intro hGet
    unfold add_or_update_product_command
    rw [hGet]
  · intro O id hGet hAbsent hIdp hQuery
    unfold add_or_update_product_command
    rw [hGet]
    simp only [into_line_item_of_not_contains O cmd.product_id hAbsent,
      hIdp, hQuery]

/-- Claim C6 witness: an empty store makes the command fail with the
not-found error and an empty write trace; a store whose order lacks the
product combined with an empty catalog fails with the product-not-found
error and an empty write trace. -/
theorem add_or_update_not_found_spec_witness :
    add_or_update_product_command
      { get_order := fun _ => .ok none,
        set_line_item := fun _ => .ok (),
        set_order := fun _ => .ok () }
      (.ok ⟨4⟩) (fun _ => .ok none) ⟨⟨1⟩, ⟨7⟩, 5⟩ =
      (.error (bad_input "not found"), []) ∧
    add_or_update_product_command
      { get_order := fun _ =>
          .ok (some (Order.from_data ⟨⟨1⟩, ⟨0⟩, ⟨2⟩⟩ [])),
        set_line_item := fun _ => .ok (),
        set_order := fun _ => .ok () }
      (.ok ⟨4⟩) (fun _ => .ok none) ⟨⟨1⟩, ⟨7⟩, 5⟩ =
      (.error (bad_input "product not found"), []) :=
  ⟨(add_or_update_not_found_spec
      { get_order := fun _ => .ok none,
        set_line_item := fun _ => .ok (),
        set_order := fun _ => .ok () }
      (.ok ⟨4⟩) (fun _ => .ok none) ⟨⟨1⟩, ⟨7⟩, 5⟩).1 rfl,
   (add_or_update_not_found_spec
      { get_order := fun _ =>
          .ok (some (Order.from_data ⟨⟨1⟩, ⟨0⟩, ⟨2⟩⟩ [])),
        set_line_item := fun _ => .ok (),
        set_order := fun _ => .ok () }
      (.ok ⟨4⟩) (fun _ => .ok none) ⟨⟨1⟩, ⟨7⟩, 5⟩).2
     (Order.from_data ⟨⟨1⟩, ⟨0⟩, ⟨2⟩⟩ []) ⟨4⟩ rfl (by decide) rfl rfl⟩

/-- Claim C9: when the stored order already contains the requested
product, the command's entire outcome (result and write trace) is the
same for any two product-lookup collaborators and any two id providers:
on the `InOrder` path neither collaborator is consulted. -/
theorem add_or_update_in_order_noninterference (store : OrderStoreOps)
    (cmd : AddOrUpdateProduct) (O : Order)
    (hGet : store.get_order cmd.id = .ok (some O))
    (hC : O.contains_product cmd.product_id = true)
    (idp₁ idp₂ : Except IdError LineItemId)
    (query₁ query₂ : GetProduct → Except Err (Option Product)) :
    add_or_update_product_command store idp₁ query₁ cmd =
      add_or_update_product_command store idp₂ query₂ cmd := by
  obtain ⟨item, -, hClass⟩ := into_line_item_of_contains O cmd.product_id hC
  unfold add_or_update_product_command
  rw [hGet]
  simp only [hClass]

/-- Claim C9 witness: on a concrete store whose order contains the
product, a failing id provider plus a failing product lookup yield the
same command outcome as a succeeding provider plus a succeeding
lookup. -/
theorem add_or_update_in_order_noninterference_witness :
    add_or_update_product_command
      { get_order := fun _ =>
          .ok (some (Order.from_data ⟨⟨1⟩, ⟨0⟩, ⟨2⟩⟩ [⟨⟨3⟩, ⟨0⟩, ⟨7⟩, 35, 2⟩])),
        set_line_item := fun _ => .ok (),
        set_order := fun _ => .ok () }
      (.error "provider down") (fun _ => .error (.other "catalog down"))
      ⟨⟨1⟩, ⟨7⟩, 5⟩ =
    add_or_update_product_command
      { get_order := fun _ =>
          .ok (some (Order.from_data ⟨⟨1⟩, ⟨0⟩, ⟨2⟩⟩ [⟨⟨3⟩, ⟨0⟩, ⟨7⟩, 35, 2⟩])),
        set_line_item := fun _ => .ok (),
        set_order := fun _ => .ok () }
      (.ok ⟨4⟩) (fun gp => .ok (some ⟨⟨gp.id, 35⟩⟩)) ⟨⟨1⟩, ⟨7⟩, 5⟩ :=
  add_or_update_in_order_noninterference
    { get_order := fun _ =>
        .ok (some (Order.from_data ⟨⟨1⟩, ⟨0⟩, ⟨2⟩⟩ [⟨⟨3⟩, ⟨0⟩, ⟨7⟩, 35, 2⟩])),
      set_line_item := fun _ => .ok (),
      set_order := fun _ => .ok () }
    ⟨⟨1⟩, ⟨7⟩, 5⟩
    (Order.from_data ⟨⟨1⟩, ⟨0⟩, ⟨2⟩⟩ [⟨⟨3⟩, ⟨0⟩, ⟨7⟩, 35, 2⟩])
    rfl (by decide) (.error "provider down") (.ok ⟨4⟩)
    (fun _ => .error (.other "catalog down"))
    (fun gp => .ok (some ⟨⟨gp.id, 35⟩⟩))

/-! ## Helper lemmas for the identifier round trip -/

theorem hexDigit_isHexChar (d : Nat) (h : d < 16) :
    isHexChar (hexDigit d) = true := by
  interval_cases d <;> rfl

theorem hexVal_hexDigit (d : Nat) (h : d < 16) : hexVal (hexDigit d) = d := by
  interval_cases d <;> rfl

theorem hexCombine (i j m : Nat) :
    m / 16 ^ j % 16 ^ i * 16 ^ j + m % 16 ^ j = m % 16 ^ (j + i) := by
  rw [pow_add, Nat.mod_mul]
  ring

theorem hexCombineShift (i j s m : Nat) :
    m / 16 ^ (s + j) % 16 ^ i * 16 ^ j + m / 16 ^ s % 16 ^ j =
      m / 16 ^ s % 16 ^ (j + i) := by
  have h := hexCombine i j (m / 16 ^ s)
  rwa [Nat.div_div_eq_div_mul, ← pow_add] at h

theorem readHex_toHexChars (k : Nat) : ∀ (acc n : Nat) (rest : List Char),
    readHex k acc (toHexChars k n ++ rest) =
      some (acc * 16 ^ k + n % 16 ^ k, rest) := by
  induction k with
  | zero =>
    intro acc n rest
    simp [toHexChars, readHex, Nat.mod_one]
  | succ k ih =>
    intro acc n rest
    have hd : n / 16 ^ k % 16 < 16 := Nat.mod_lt _ (by norm_num)
    have hc := hexCombine 1 k n
    rw [pow_one] at hc
    have harith : (acc * 16 + n / 16 ^ k % 16) * 16 ^ k + n % 16 ^ k =
        acc * 16 ^ (k + 1) + (n / 16 ^ k % 16 * 16 ^ k + n % 16 ^ k) := by
      ring
    simp [toHexChars, readHex, hexDigit_isHexChar _ hd,
      hexVal_hexDigit _ hd, ih, harith, hc]

theorem readHex_toHexChars_nil (k acc n : Nat) :
    readHex k acc (toHexChars k n) =
      some (acc * 16 ^ k + n % 16 ^ k, []) := by
  conv_lhs => rw [← List.append_nil (toHexChars k n)]
  exact readHex_toHexChars k acc n []

theorem parseUuid_render (n : Nat) (h : n < 2 ^ 128) :
    parseUuidChars (renderUuidChars n) = some n := by
  have c1 := hexCombineShift 8 4 20 n
  have c2 := hexCombineShift 12 4 16 n
  have c3 := hexCombineShift 16 4 12 n
  have c4 := hexCombineShift 20 12 0 n
  have hn : n % 16 ^ 32 = n := Nat.mod_eq_of_lt (by calc
    n < 2 ^ 128 := h
    _ = 16 ^ 32 := by norm_num)
  norm_num at c1 c2 c3 c4 hn
  unfold parseUuidChars renderUuidChars
  simp [readHex_toHexChars, readHex_toHexChars_nil, expectDash,
    c1, c2, c3, c4, hn]

theorem readHex_sound (k : Nat) : ∀ (acc v : Nat) (cs rest : List Char),
    readHex k acc cs = some (v, rest) →
    ∃ ds, cs = ds ++ rest ∧ ds.length = k ∧ ds.all isHexChar = true := by
  induction k with
  | zero =>
    intro acc v cs rest h
    simp only [readHex, Option.some.injEq, Prod.mk.injEq] at h
    exact ⟨[], by simp [h.2], rfl, rfl⟩
  | succ k ih =>
    intro acc v cs rest h
    cases cs with
    | nil => simp [readHex] at h
    | cons c cs' =>
      simp only [readHex] at h
      by_cases hc : isHexChar c = true
      · rw [if_pos hc] at h
        obtain ⟨ds, hds, hlen, hhex⟩ := ih _ _ _ _ h
        exact ⟨c :: ds, by simp [hds], by simp [hlen], by simp [hhex, hc]⟩
      · rw [if_neg hc] at h
        exact absurd h (by simp)

theorem expectDash_sound (cs rest : List Char)
    (h : expectDash cs = some rest) : cs = '-' :: rest := by
  unfold expectDash at h
  split at h
  · rw [Option.some.inj h]
  · exact absurd h (by simp)

theorem parseUuidChars_sound (cs : List Char) (n : Nat)
    (h : parseUuidChars cs = some n) :
    ∃ d1 d2 d3 d4 d5 : List Char,
      cs = d1 ++ '-' :: (d2 ++ '-' :: (d3 ++ '-' :: (d4 ++ '-' :: d5))) ∧
      d1.length = 8 ∧ d2.length = 4 ∧ d3.length = 4 ∧ d4.length = 4 ∧
      d5.length = 12 ∧
      d1.all isHexChar = true ∧ d2.all isHexChar = true ∧
      d3.all isHexChar = true ∧ d4.all isHexChar = true ∧
      d5.all isHexChar = true := by
  unfold parseUuidChars at h
  rw [Option.bind_eq_some] at h; obtain ⟨acs, h1, h⟩ := h
  rw [Option.bind_eq_some] at h; obtain ⟨cs1, hd1, h⟩ := h
  rw [Option.bind_eq_some] at h; obtain ⟨bcs, h2, h⟩ := h
  rw [Option.bind_eq_some] at h; obtain ⟨cs2, hd2, h⟩ := h
  rw [Option.bind_eq_some] at h; obtain ⟨ccs, h3, h⟩ := h
  rw [Option.bind_eq_some] at h; obtain ⟨cs3, hd3, h⟩ := h
  rw [Option.bind_eq_some] at h; obtain ⟨dcs, h4, h⟩ := h
  rw [Option.bind_eq_some] at h; obtain ⟨cs4, hd4, h⟩ := h
  rw [Option.bind_eq_some] at h; obtain ⟨ecs, h5, h⟩ := h
  cases hrest : ecs.2 with
  | cons x xs => rw [hrest] at h; exact absurd h (by simp)
  | nil =>
    obtain ⟨ds1, e1, l1, x1⟩ := readHex_sound 8 0 acs.1 cs acs.2 h1
    have f1 := expectDash_sound acs.2 cs1 hd1
    obtain ⟨ds2, e2, l2, x2⟩ := readHex_sound 4 acs.1 bcs.1 cs1 bcs.2 h2
    have f2 := expectDash_sound bcs.2 cs2 hd2
    obtain ⟨ds3, e3, l3, x3⟩ := readHex_sound 4 bcs.1 ccs.1 cs2 ccs.2 h3
    have f3 := expectDash_sound ccs.2 cs3 hd3
    obtain ⟨ds4, e4, l4, x4⟩ := readHex_sound 4 ccs.1 dcs.1 cs3 dcs.2 h4
    have f4 := expectDash_sound dcs.2 cs4 hd4
    obtain ⟨ds5, e5, l5, x5⟩ := readHex_sound 12 dcs.1 ecs.1 cs4 ecs.2 h5
    rw [hrest, List.append_nil] at e5
    refine ⟨ds1, ds2, ds3, ds4, ds5, ?_, l1, l2, l3, l4, l5, x1, x2, x3, x4, x5⟩
    rw [e1, f1, e2, f2, e3, f3, e4, f4, e5]

/-- Claim C7: rendering an identifier to its canonical hyphenated UUID
string and parsing it back yields the identical identifier (for every
128-bit value the `Uuid` can hold), and parsing any string that is not a
well-formed hyphenated UUID fails with a parse error. -/
theorem id_render_parse_spec :
    (∀ (T : Type) (id : Id T), id.val < 2 ^ 128 →
      Id.tryFrom T (Id.render id) = .ok id) ∧
    (∀ (T : Type) (s : String), ¬ WellFormedUuid s →
      ∃ e, Id.tryFrom T s = .error e) := by
  constructor
  · intro T id h
    unfold Id.tryFrom Id.render
    rw [show (String.mk (renderUuidChars id.val)).data =
      renderUuidChars id.val from rfl, parseUuid_render id.val h]
  · intro T s h
    cases hp : parseUuidChars s.data with
    | none =>
      refine ⟨"invalid uuid", ?_⟩
      unfold Id.tryFrom
      rw [hp]
    | some n => exact absurd (parseUuidChars_sound s.data n hp) h

/-- Claim C7 witness: a concrete identifier survives the render/parse
round trip, and the non-UUID string `"x"` fails to parse. -/
theorem id_render_parse_spec_witness :
    Id.tryFrom OrderDataT (Id.render (⟨291⟩ : Id OrderDataT)) = .ok ⟨291⟩ ∧
    ∃ e, Id.tryFrom OrderDataT "x" = .error e := by
  refine ⟨id_render_parse_spec.1 OrderDataT ⟨291⟩ (by norm_num),
    id_render_parse_spec.2 OrderDataT "x" ?_⟩
  rintro ⟨d1, d2, d3, d4, d5, heq, h1, h2, h3, h4, h5, -⟩
  have hlen := congrArg List.length heq
  rw [show ("x".data) = ['x'] from rfl] at hlen
  simp [h1, h2, h3, h4, h5] at hlen

end RustShop
